import Mathlib

/-
  Verification of src/static/js/FinancialDashboard.js.

  The file shallowly embeds the dashboard component: JavaScript number-or-absent
  values become the inductive `JsValue`, the React state hooks become the record
  `ViewState`, and each async handler is split into its synchronous start phase
  (state mutations performed before `await fetch`) and its completion phase
  (the continuation run once the response resolves), parameterised by an
  explicit `FetchOutcome` describing what the network and JSON parsing did.
-/

/-- JavaScript value domain for the numeric-or-absent slots of the dashboard
data model: `null`, `undefined`, the NaN sentinel, or a finite number
(modelled as a rational). -/
inductive JsValue where
  | null
  | undefined
  | nan
  | num (q : ℚ)
deriving DecidableEq

/-- JavaScript truthiness of a `JsValue`: only a nonzero number is truthy
(0, NaN, null and undefined are all falsy). -/
def truthy : JsValue → Bool
  | .num q => decide (q ≠ 0)
  | _ => false

/-- The domain of JavaScript number arithmetic results: NaN, the two
infinities, or a finite value. The finite values are exact rationals;
rounding of in-range double results is not modelled (no claim depends on
it), but overflow to the infinities is, because the change-indicator guard
in renderMetricCard checks only isNaN. -/
inductive JsNumber where
  | nan
  | inf
  | negInf
  | num (q : ℚ)
deriving DecidableEq

/-- JavaScript ToNumber coercion of a dashboard value into the arithmetic
domain: `null` coerces to 0, `undefined` and the NaN sentinel to NaN. -/
def jsNum : JsValue → JsNumber
  | .null => .num 0
  | .undefined => .nan
  | .nan => .nan
  | .num q => .num q

/-- Delivery of an exact arithmetic result into the double domain:
magnitudes at or beyond the IEEE-754 overflow bound 2 ^ 1024 saturate to
the corresponding infinity, as JavaScript number arithmetic does on
overflow; smaller magnitudes stay as they are. -/
def jsnOfRat (x : ℚ) : JsNumber :=
  if 2 ^ 1024 ≤ x then .inf
  else if x ≤ -(2 ^ 1024) then .negInf
  else .num x

/-- JavaScript subtraction on arithmetic values: NaN-propagating, with the
usual infinity algebra, and overflow saturation on finite operands. -/
def jsnSub : JsNumber → JsNumber → JsNumber
  | .nan, _ => .nan
  | _, .nan => .nan
  | .inf, .inf => .nan
  | .inf, _ => .inf
  | .negInf, .negInf => .nan
  | .negInf, _ => .negInf
  | .num _, .inf => .negInf
  | .num _, .negInf => .inf
  | .num x, .num y => jsnOfRat (x - y)

/-- JavaScript division on arithmetic values: NaN-propagating, infinity
over infinity is NaN, a finite value over an infinity is 0, an infinity
over a finite value keeps the sign-adjusted infinity, a nonzero finite
value over 0 is the signed infinity (0 is treated as +0; negative zero is
not modelled), 0 over 0 is NaN, and a finite quotient saturates on
overflow. The only call site guards the denominator with truthiness, so
the zero-denominator branches are unreachable there. -/
def jsnDiv : JsNumber → JsNumber → JsNumber
  | .nan, _ => .nan
  | _, .nan => .nan
  | .inf, .inf => .nan
  | .inf, .negInf => .nan
  | .negInf, .inf => .nan
  | .negInf, .negInf => .nan
  | .inf, .num y => if y < 0 then .negInf else .inf
  | .negInf, .num y => if y < 0 then .inf else .negInf
  | .num _, .inf => .num 0
  | .num _, .negInf => .num 0
  | .num x, .num y =>
    if y = 0 then (if x = 0 then .nan else if x < 0 then .negInf else .inf)
    else jsnOfRat (x / y)

/-- JavaScript multiplication on arithmetic values: NaN-propagating, an
infinity times 0 is NaN, an infinity times a nonzero value keeps the
sign-adjusted infinity, and a finite product saturates on overflow. -/
def jsnMul : JsNumber → JsNumber → JsNumber
  | .nan, _ => .nan
  | _, .nan => .nan
  | .inf, .inf => .inf
  | .inf, .negInf => .negInf
  | .negInf, .inf => .negInf
  | .negInf, .negInf => .inf
  | .inf, .num y => if y = 0 then .nan else if y < 0 then .negInf else .inf
  | .num y, .inf => if y = 0 then .nan else if y < 0 then .negInf else .inf
  | .negInf, .num y => if y = 0 then .nan else if y < 0 then .inf else .negInf
  | .num y, .negInf => if y = 0 then .nan else if y < 0 then .inf else .negInf
  | .num x, .num y => jsnOfRat (x * y)

/-- The JavaScript `isNaN` test on an arithmetic value. -/
def jsnIsNaN : JsNumber → Bool
  | .nan => true
  | _ => false

/-- The JavaScript comparison `x >= 0` on an arithmetic value (false for
NaN, true for Infinity, false for -Infinity). -/
def jsnNonneg : JsNumber → Bool
  | .nan => false
  | .inf => true
  | .negInf => false
  | .num q => decide (0 ≤ q)

/-- Absolute value on rationals, written out so the kernel evaluates it. -/
def ratAbs (q : ℚ) : ℚ :=
  if q < 0 then -q else q

/-- Rounding of the absolute value scaled by a power of ten,
round(|q| * 10 ^ d), to the nearest natural (half up), written on the
reduced numerator and denominator (floor of a/b + 1/2 is (2a + b) / (2b))
so that the kernel can evaluate it on concrete inputs. -/
def ratDigits (q : ℚ) (d : Nat) : Nat :=
  (2 * q.num.natAbs * 10 ^ d + q.den) / (2 * q.den)

/-- Rounding of the absolute value scaled down by a unit, round(|q| / k), to
the nearest natural (half up), on the reduced numerator and denominator. -/
def ratDivRound (q : ℚ) (k : Nat) : Nat :=
  (2 * q.num.natAbs + k * q.den) / (2 * k * q.den)

/-- The comparison |q| < k on the reduced numerator and denominator. -/
def ratAbsLt (q : ℚ) (k : Nat) : Bool :=
  q.num.natAbs < k * q.den

/-- Left-pad a string with zeros to length `d`. -/
def zeroPad (d : Nat) (s : String) : String :=
  String.mk (List.replicate (d - s.length) '0') ++ s

/-- Helper for digit grouping: walks a reversed digit list inserting a comma
after every third character. -/
def groupRevAux : List Char → Nat → List Char
  | [], _ => []
  | c :: rest, k =>
    if k = 0 then ',' :: c :: groupRevAux rest 2
    else c :: groupRevAux rest (k - 1)

/-- Thousands grouping of a digit string, as en-US number formatting does. -/
def group3 (s : String) : String :=
  String.mk (groupRevAux s.data.reverse 3).reverse

/-- Model of JavaScript `Number.prototype.toFixed(d)`: sign, then the number
rounded to `d` decimal places with the fraction zero-padded. -/
def jsToFixed (q : ℚ) (d : Nat) : String :=
  let p : Nat := 10 ^ d
  let m : Nat := ratDigits q d
  let sign := if q.num < 0 then "-" else ""
  if d = 0 then sign ++ toString m
  else sign ++ toString (m / p) ++ "." ++ zeroPad d (toString (m % p))

/-- formatPrice from FinancialDashboard.js: null/undefined give "N/A",
otherwise Intl en-US USD currency with exactly 2 fraction digits (modelled
here as dollar sign, grouped integer digits, 2-digit fraction; `format(NaN)`
yields "$NaN" in that locale). -/
def formatPrice : JsValue → String
  | .null => "N/A"
  | .undefined => "N/A"
  | .nan => "$NaN"
  | .num q =>
    let m := ratDigits q 2
    (if q.num < 0 then "-" else "") ++ "$" ++ group3 (toString (m / 100)) ++ "." ++ zeroPad 2 (toString (m % 100))

/-- formatCurrency from FinancialDashboard.js: null/undefined give "N/A",
otherwise Intl en-US USD compact currency with 0 fraction digits (modelled
with the standard K/M/B/T compact suffixes; `format(NaN)` yields "$NaN"). -/
def formatCurrency : JsValue → String
  | .null => "N/A"
  | .undefined => "N/A"
  | .nan => "$NaN"
  | .num q =>
    let sign := if q.num < 0 then "-" else ""
    if ratAbsLt q 1000 then sign ++ "$" ++ toString (ratDivRound q 1)
    else if ratAbsLt q 1000000 then sign ++ "$" ++ toString (ratDivRound q 1000) ++ "K"
    else if ratAbsLt q 1000000000 then sign ++ "$" ++ toString (ratDivRound q 1000000) ++ "M"
    else if ratAbsLt q 1000000000000 then sign ++ "$" ++ toString (ratDivRound q 1000000000) ++ "B"
    else sign ++ "$" ++ group3 (toString (ratDivRound q 1000000000000)) ++ "T"

/-- formatPercent from FinancialDashboard.js: null/undefined give "N/A",
otherwise `value.toFixed(2)` suffixed with a percent sign (`NaN.toFixed(2)`
is the string "NaN", so NaN yields "NaN%"). -/
def formatPercent : JsValue → String
  | .null => "N/A"
  | .undefined => "N/A"
  | .nan => "NaN%"
  | .num q => jsToFixed q 2 ++ "%"

/-- Quarterly metrics mapping of a `QuarterlyRecord`: each metric is numeric
or absent. -/
structure Metrics where
  Revenue : JsValue
  NetIncome : JsValue
  ProfitMargin : JsValue
  Assets : JsValue
deriving DecidableEq

/-- One quarter of reported financials: a date string plus the metrics map. -/
structure QuarterlyRecord where
  date : String
  metrics : Metrics
deriving DecidableEq

/-- company_info of a fetched StockSnapshot. -/
structure CompanyInfo where
  name : String
  ticker : String
  sector : String
  industry : String
  marketCap : JsValue
  eps : JsValue
  employees : JsValue
  currentPrice : JsValue
  priceChange : JsValue
  lastUpdated : String
deriving DecidableEq

/-- The unit returned by the ticker fetch: company info plus the ordered
(most-recent-first) quarterly data sequence. -/
structure StockSnapshot where
  company_info : CompanyInfo
  quarterly_data : List QuarterlyRecord
deriving DecidableEq

/-- The component's React state hooks. `data = none` models the initial
`null`; `analysisContent = none` models the JS value `undefined` (reachable
when a success body lacks the expected field) while `some ""` models the
empty string the hook is initialised with. -/
structure ViewState where
  ticker : String
  loading : Bool
  error : String
  data : Option StockSnapshot
  analysisType : Option String
  analysisContent : Option String
  loadingAnalysis : Bool
deriving DecidableEq

/-- An HTTP request issued by the component: the search GET, or the analysis
POST whose body is the JSON-stringified current dataset. -/
inductive Request where
  | get (url : String)
  | post (url : String) (body : StockSnapshot)
deriving DecidableEq

/-- Decidable equality for `Except`, needed to derive it for `FetchOutcome`. -/
instance {ε α : Type} [DecidableEq ε] [DecidableEq α] : DecidableEq (Except ε α) := fun x y =>
  match x, y with
  | .ok a, .ok b => if h : a = b then .isTrue (by rw [h]) else .isFalse (by simp [h])
  | .error a, .error b => if h : a = b then .isTrue (by rw [h]) else .isFalse (by simp [h])
  | .ok _, .error _ => .isFalse (by simp)
  | .error _, .ok _ => .isFalse (by simp)

/-- What the network and body parsing did for one issued request, as seen by
the handler's continuation: a 2xx response whose `response.json()` either
yields a body of type α or throws with a message; a non-2xx response whose
error body parse either yields an optional `error` field or throws; or a
rejection of `fetch` itself. -/
inductive FetchOutcome (α : Type) where
  | success (body : Except String α)
  | httpError (body : Except String (Option String))
  | networkError (msg : String)
deriving DecidableEq

/-- JavaScript `x || d` on the optional error field of a parsed error body:
a missing field and a falsy (empty) string both fall back to the default. -/
def jsOrDefault (e : Option String) (d : String) : String :=
  match e with
  | some m => if m = "" then d else m
  | none => d

/-- Model of JavaScript `String.prototype.toUpperCase` on the ASCII ticker
strings the form accepts. -/
def jsToUpperCase (s : String) : String :=
  String.mk (s.data.map Char.toUpper)

/-- Synchronous start phase of handleSearch: the `if (!ticker) return` guard
(the empty string is the only falsy ticker state), then the four state
mutations performed before the `await fetch`, and the GET request issued to
the upper-cased ticker path. -/
def handleSearchStart (s : ViewState) : ViewState × Option Request :=
  if s.ticker = "" then (s, none)
  else
    ({ s with loading := true, error := "", data := none, analysisContent := some "" },
     some (.get ("/api/stock/" ++ jsToUpperCase s.ticker)))

/-- Completion phase of handleSearch: the try/catch over the resolved
response, with the catch storing `err.message` and the finally clearing the
loading flag on every path. -/
def handleSearchComplete (s : ViewState) (out : FetchOutcome StockSnapshot) : ViewState :=
  let s2 :=
    match out with
    | .success (.ok snap) => { s with data := some snap }
    | .success (.error m) => { s with error := m }
    | .httpError (.ok ef) => { s with error := jsOrDefault ef "Failed to fetch data" }
    | .httpError (.error m) => { s with error := m }
    | .networkError m => { s with error := m }
  { s2 with loading := false }

/-- A full run of handleSearch for a given fetch outcome: no-op when the
ticker is empty, otherwise the start phase followed by the completion. -/
def handleSearch (s : ViewState) (out : FetchOutcome StockSnapshot) : ViewState × Option Request :=
  match handleSearchStart s with
  | (_, none) => (s, none)
  | (s1, some r) => (handleSearchComplete s1 out, some r)

/-- Parsed 2xx body of an analysis request: the three possible prose fields,
each possibly absent. -/
structure AnalysisBody where
  analysis : Option String
  prediction : Option String
  risk_assessment : Option String
deriving DecidableEq

/-- The field selection `result[type === 'analyze' ? 'analysis' : type ===
'predict' ? 'prediction' : 'risk_assessment']`; an absent field gives the JS
value `undefined`, i.e. `none`. -/
def fieldFor (ty : String) (b : AnalysisBody) : Option String :=
  if ty = "analyze" then b.analysis
  else if ty = "predict" then b.prediction
  else b.risk_assessment

/-- Synchronous start phase of handleAnalysisClick: the `if (!data) return`
guard, then the three state mutations performed before the `await fetch`,
and the POST request carrying the full current dataset as its body. -/
def handleAnalysisStart (s : ViewState) (ty : String) : ViewState × Option Request :=
  match s.data with
  | none => (s, none)
  | some d =>
    ({ s with loadingAnalysis := true, analysisType := some ty, analysisContent := some "" },
     some (.post ("/api/" ++ ty) d))

/-- Completion phase of handleAnalysisClick: on a 2xx body store the field
selected by the kind, on any failure store `err.message`, and clear the
analysis loading flag on every path (the finally block). -/
def handleAnalysisComplete (s : ViewState) (ty : String) (out : FetchOutcome AnalysisBody) : ViewState :=
  let s2 :=
    match out with
    | .success (.ok b) => { s with analysisContent := fieldFor ty b }
    | .success (.error m) => { s with error := m }
    | .httpError (.ok ef) => { s with error := jsOrDefault ef "Failed to generate analysis" }
    | .httpError (.error m) => { s with error := m }
    | .networkError m => { s with error := m }
  { s2 with loadingAnalysis := false }

/-- A full run of handleAnalysisClick for a given fetch outcome: no-op when
no dataset is present, otherwise the start phase followed by completion. -/
def handleAnalysisClick (s : ViewState) (ty : String) (out : FetchOutcome AnalysisBody) : ViewState × Option Request :=
  match handleAnalysisStart s ty with
  | (_, none) => (s, none)
  | (s1, some r) => (handleAnalysisComplete s1 ty out, some r)

/-- An analysis run that did not deliver a parsed 2xx body: every failure
mode, including a body-parse throw on a 2xx response. -/
def analysisFailed : FetchOutcome AnalysisBody → Bool
  | .success (.ok _) => false
  | _ => true

/-- The JavaScript `Math.abs` on an arithmetic value. -/
def jsnAbs : JsNumber → JsNumber
  | .nan => .nan
  | .inf => .inf
  | .negInf => .inf
  | .num q => .num (ratAbs q)

/-- JavaScript `toFixed(d)` on an arithmetic value: the infinities and NaN
display as their names, finite values as `jsToFixed`. -/
def jsnToFixed (x : JsNumber) (d : Nat) : String :=
  match x with
  | .nan => "NaN"
  | .inf => "Infinity"
  | .negInf => "-Infinity"
  | .num q => jsToFixed q d

/-- The percent-change computation of renderMetricCard:
`previousValue ? ((value - previousValue) / previousValue) * 100 : null`.
The result is `none` (JS null) when the previous value is falsy, otherwise
the double-arithmetic change, which is NaN-propagating and can overflow to
an infinity. -/
def metricChange (value previousValue : JsValue) : Option JsNumber :=
  if truthy previousValue then
    some (jsnMul (jsnDiv (jsnSub (jsNum value) (jsNum previousValue)) (jsNum previousValue))
      (.num 100))
  else none

/-- The change indicator of renderMetricCard, shown only under the guard
`change !== null && !isNaN(change)` (there is no finiteness check, so the
infinities pass the guard): an up arrow for `change >= 0` and a down arrow
otherwise, with `Math.abs(change).toFixed(1)` and a percent sign. `none`
means the indicator is omitted from the card. -/
def changeDisplay (value previousValue : JsValue) : Option String :=
  match metricChange value previousValue with
  | none => none
  | some c =>
    if jsnIsNaN c then none
    else some ((if jsnNonneg c then "↑" else "↓") ++ " " ++ jsnToFixed (jsnAbs c) 1 ++ "%")

/-- Date parsing and locale formatting (`new Date(d).toLocaleDateString()`)
are host browser behaviour; modelled as the identity on the date string,
which is adequate because no claim depends on calendar formatting. -/
def toLocaleDateString (s : String) : String :=
  s

/-- Model of `Number.prototype.toLocaleString` as invoked on a number-or-
absent JS value: calling a method on null or undefined throws a TypeError;
NaN displays as "NaN"; a number gets en-US grouping with up to three
fraction digits. -/
def jsToLocaleString : JsValue → Except String String
  | .null => .error "TypeError: Cannot read properties of null (reading 'toLocaleString')"
  | .undefined => .error "TypeError: Cannot read properties of undefined (reading 'toLocaleString')"
  | .nan => .ok "NaN"
  | .num q =>
    let m := ratDigits q 3
    let fr := m % 1000
    let frs := String.mk ((zeroPad 3 (toString fr)).data.reverse.dropWhile (· = '0')).reverse
    .ok ((if q.num < 0 then "-" else "") ++ group3 (toString (m / 1000)) ++ (if fr = 0 then "" else "." ++ frs))

/-- The text block renderMetricCard produces: the title, the formatted
current value, the optional as-of date, and the optional change
indicator. -/
def renderMetricCard (title : String) (value previousValue : JsValue) (date : Option String) (formatFn : JsValue → String) : String :=
  title ++ " " ++ formatFn value ++
    (match date with
     | some dt => " As of " ++ toLocaleDateString dt
     | none => "") ++
    (match changeDisplay value previousValue with
     | some c => " " ++ c
     | none => "")

/-- One tuple of the chart adapter's output. -/
structure ChartPoint where
  date : String
  revenue : JsValue
  netIncome : JsValue
  profitMargin : JsValue
deriving DecidableEq

/-- The chart adapter: `data.quarterly_data.map(q => ({date: q.date,
revenue: q.metrics.Revenue, netIncome: q.metrics.NetIncome, profitMargin:
q.metrics.ProfitMargin}))`. -/
def chartData (qd : List QuarterlyRecord) : List ChartPoint :=
  qd.map (fun q => ⟨q.date, q.metrics.Revenue, q.metrics.NetIncome, q.metrics.ProfitMargin⟩)

/-- The metric-card grid: guarded by `data.quarterly_data[0] && ...`, with
every previous value read through `data.quarterly_data[1]?.metrics`, which
is `undefined` when the sequence has no second record. -/
def renderMetricCards (qd : List QuarterlyRecord) : List String :=
  match qd.get? 0 with
  | none => []
  | some r0 =>
    let prevMetric : (Metrics → JsValue) → JsValue := fun f =>
      match qd.get? 1 with
      | none => .undefined
      | some r1 => f r1.metrics
    [ renderMetricCard "Revenue" r0.metrics.Revenue (prevMetric (·.Revenue)) (some r0.date) formatCurrency,
      renderMetricCard "Net Income" r0.metrics.NetIncome (prevMetric (·.NetIncome)) none formatCurrency,
      renderMetricCard "Profit Margin" r0.metrics.ProfitMargin (prevMetric (·.ProfitMargin)) none formatPercent,
      renderMetricCard "Total Assets" r0.metrics.Assets (prevMetric (·.Assets)) none formatCurrency ]

/-- The company-header block: every field access the JSX performs on
company_info, including `employees.toLocaleString()` (which throws when
employees is absent) and the truthiness-guarded priceChange indicator. -/
def renderCompanyInfo (c : CompanyInfo) : Except String (List String) :=
  match jsToLocaleString c.employees with
  | .error m => .error m
  | .ok emp =>
    .ok ([ c.name ++ " (" ++ c.ticker ++ ")",
           c.sector ++ " | " ++ c.industry,
           "Market Cap: " ++ formatCurrency c.marketCap,
           "EPS: " ++ formatCurrency c.eps,
           "Employees: " ++ emp,
           formatPrice c.currentPrice ] ++
         (match c.priceChange with
          | .num q => if q ≠ 0 then
              [(if 0 ≤ q then "↑" else "↓") ++ " " ++ jsToFixed (ratAbs q) 2 ++ "%"]
            else []
          | _ => []) ++
         [ "Last Updated: " ++ c.lastUpdated ])

/-- The Financial Data Period block: it reads `data.quarterly_data[0].date`
and `data.quarterly_data[1].date` without optional chaining, so indexing
past the end yields `undefined` and the `.date` access throws. -/
def renderPeriodSection (qd : List QuarterlyRecord) : Except String (List String) :=
  match qd.get? 0 with
  | none => .error "TypeError: Cannot read properties of undefined (reading 'date')"
  | some r0 =>
    match qd.get? 1 with
    | none => .error "TypeError: Cannot read properties of undefined (reading 'date')"
    | some r1 =>
      .ok [ "Latest Quarter: " ++ toLocaleDateString r0.date,
            "Previous Quarter: " ++ toLocaleDateString r1.date ]

/-- Rendering of the `{data && ...}` block of the dashboard for a fetched
snapshot, in JSX evaluation order: company header, Financial Data Period,
metric cards, and the chart section when the charting collaborator
(`window.Recharts`) is available. The result is an error exactly when some
data access in the markup throws. -/
def renderDashboard (data : Option StockSnapshot) (rechartsAvailable : Bool) : Except String (List String) :=
  match data with
  | none => .ok []
  | some d =>
    match renderCompanyInfo d.company_info with
    | .error m => .error m
    | .ok header =>
      match renderPeriodSection d.quarterly_data with
      | .error m => .error m
      | .ok period =>
        let cards := renderMetricCards d.quarterly_data
        let chart := if rechartsAvailable then (chartData d.quarterly_data).map (·.date) else []
        .ok (header ++ period ++ cards ++ chart)

/-- Whether an `Except`-modelled render succeeded. -/
def renderOk : Except String (List String) → Bool
  | .ok _ => true
  | .error _ => false

/-- Sample quarterly metrics used by the concrete witnesses. -/
def sampleMetrics : Metrics :=
  ⟨.num 100000000, .num 20000000, .num 20, .num 500000000⟩

/-- Sample quarterly record used by the concrete witnesses. -/
def sampleQuarter : QuarterlyRecord :=
  ⟨"2023-12-31", sampleMetrics⟩

/-- Sample company info used by the concrete witnesses. -/
def sampleCompany : CompanyInfo :=
  ⟨"Apple Inc.", "AAPL", "Technology", "Consumer Electronics",
   .num 3000000000000, .num 6, .num 150000, .num 190, .num 1, "2024-01-01"⟩

/-- A successfully fetched snapshot whose quarterly sequence has exactly one
record. -/
def sampleSnapshot1 : StockSnapshot :=
  ⟨sampleCompany, [sampleQuarter]⟩

/-- A pre-search view state whose ticker input holds the lower-case text
"aapl". -/
def sampleSearchState : ViewState :=
  ⟨"aapl", false, "", none, none, some "", false⟩

/-- A view state after a successful fetch, with a dataset present, a
previously selected analysis kind and no error. -/
def sampleLoadedState : ViewState :=
  ⟨"AAPL", false, "", some sampleSnapshot1, some "analyze", some "", false⟩

/-- C2: formatPrice, formatCurrency and formatPercent are total Lean
functions (so they never throw); a missing value (null or undefined) yields
"N/A"; the NaN sentinel, however, is not treated as absent: it is formatted,
yielding "$NaN", "$NaN" and "NaN%" respectively, none of which is "N/A". -/
theorem formatters_absent_to_NA (v : JsValue) :
    ((v = .null ∨ v = .undefined) →
      formatPrice v = "N/A" ∧ formatCurrency v = "N/A" ∧ formatPercent v = "N/A") ∧
    (formatPrice .nan = "$NaN" ∧ formatCurrency .nan = "$NaN" ∧ formatPercent .nan = "NaN%") ∧
    (formatPrice .nan ≠ "N/A" ∧ formatCurrency .nan ≠ "N/A" ∧ formatPercent .nan ≠ "N/A") := by
  refine ⟨?_, by decide, by decide⟩
  rintro (rfl | rfl) <;> exact ⟨rfl, rfl, rfl⟩

/-- C2 witness: the formatters evaluated at the concrete absent input null. -/
theorem formatters_absent_to_NA_witness :
    formatPrice JsValue.null = "N/A" ∧ formatCurrency JsValue.null = "N/A" ∧
      formatPercent JsValue.null = "N/A" :=
  (formatters_absent_to_NA JsValue.null).1 (Or.inl rfl)

/-- C2 counterexample: the claim maps NaN to "N/A", but the code formats the
NaN sentinel, producing "NaN%" (and "$NaN" for the currency formatters). -/
theorem formatters_nan_counterexample :
    formatPercent JsValue.nan = "NaN%" ∧ formatPercent JsValue.nan ≠ "N/A" ∧
      formatPrice JsValue.nan ≠ "N/A" ∧ formatCurrency JsValue.nan ≠ "N/A" := by
  decide

/-- C3: with an empty ticker, handleSearch is a no-op that issues no request
and leaves the state unchanged; with a non-empty ticker it issues a GET to
/api/stock/ followed by the upper-cased ticker text, and its start phase
sets loading, and clears the error, the dataset and the analysis text. -/
theorem submitTickerSearch_spec (s : ViewState) (out : FetchOutcome StockSnapshot) :
    (s.ticker = "" → handleSearch s out = (s, none)) ∧
    (s.ticker ≠ "" →
      (handleSearch s out).2 = some (Request.get ("/api/stock/" ++ jsToUpperCase s.ticker)) ∧
      (handleSearchStart s).1.loading = true ∧
      (handleSearchStart s).1.error = "" ∧
      (handleSearchStart s).1.data = none ∧
      (handleSearchStart s).1.analysisContent = some "") := by
  constructor
  · intro h
    simp [handleSearch, handleSearchStart, h]
  · intro h
    simp [handleSearch, handleSearchStart, h]

/-- C3 witness: searching the concrete ticker text "aapl" issues a GET to
/api/stock/AAPL. -/
theorem submitTickerSearch_spec_witness :
    sampleSearchState.ticker ≠ "" ∧
      (handleSearch sampleSearchState (.networkError "net")).2 =
        some (Request.get "/api/stock/AAPL") :=
  ⟨by decide,
   (((submitTickerSearch_spec sampleSearchState (.networkError "net")).2 (by decide)).1).trans
     (by decide)⟩

/-- C4 (amended): on a non-2xx search response, the dataset ends absent in
every case, and the error state becomes the body's error field when that
field is a non-empty string; an absent or empty (falsy) error field falls
back to the generic message, and a throwing body parse surfaces the parse
error's message. -/
theorem search_failure_error_spec (s : ViewState) (body : Except String (Option String))
    (h : s.ticker ≠ "") :
    ((handleSearch s (.httpError body)).1.data = none) ∧
    ((handleSearch s (.httpError body)).1.error =
      match body with
      | .ok (some e) => if e = "" then "Failed to fetch data" else e
      | .ok none => "Failed to fetch data"
      | .error m => m) := by
  cases body with
  | ok ef =>
    cases ef with
    | none => simp [handleSearch, handleSearchStart, handleSearchComplete, jsOrDefault, h]
    | some e =>
      by_cases he : e = "" <;>
        simp [handleSearch, handleSearchStart, handleSearchComplete, jsOrDefault, h, he]
  | error m => simp [handleSearch, handleSearchStart, handleSearchComplete, h]

/-- C4 witness: a failure whose body carries the error field "Not found"
makes the error state exactly "Not found" and leaves the dataset absent. -/
theorem search_failure_error_spec_witness :
    sampleSearchState.ticker ≠ "" ∧
      (handleSearch sampleSearchState (.httpError (.ok (some "Not found")))).1.data = none ∧
      (handleSearch sampleSearchState (.httpError (.ok (some "Not found")))).1.error =
        "Not found" :=
  ⟨by decide,
   (search_failure_error_spec sampleSearchState (.ok (some "Not found")) (by decide)).1,
   ((search_failure_error_spec sampleSearchState (.ok (some "Not found")) (by decide)).2).trans
     (by decide)⟩

/-- C4 counterexample: a failure body that contains the error field with the
empty string does not make the error state that field's string; the JS
short-circuit `errorData.error || ...` falls back to the generic message. -/
theorem search_error_empty_field_counterexample :
    (handleSearch sampleSearchState (.httpError (.ok (some "")))).1.error =
        "Failed to fetch data" ∧
      "Failed to fetch data" ≠ "" := by
  decide

/-- C5: with no dataset present, handleAnalysisClick is a no-op that issues
no request; with a dataset present it issues a POST to /api/ followed by the
kind, carrying the full current dataset as the body, records the kind as the
selected analysis type, and on a parsed 2xx body stores the field selected
by the kind (analyze selects analysis, predict selects prediction, risk
selects risk_assessment) as the analysis content. -/
theorem requestAnalysis_spec (s : ViewState) (d : StockSnapshot) (ty : String) (b : AnalysisBody)
    (_hty : ty = "analyze" ∨ ty = "predict" ∨ ty = "risk") :
    (s.data = none → ∀ out, handleAnalysisClick s ty out = (s, none)) ∧
    (s.data = some d →
      (handleAnalysisClick s ty (.success (.ok b))).2 =
        some (Request.post ("/api/" ++ ty) d) ∧
      (handleAnalysisClick s ty (.success (.ok b))).1.analysisType = some ty ∧
      (handleAnalysisClick s ty (.success (.ok b))).1.analysisContent =
        (if ty = "analyze" then b.analysis
         else if ty = "predict" then b.prediction
         else b.risk_assessment)) := by
  constructor
  · intro h out
    simp [handleAnalysisClick, handleAnalysisStart, h]
  · intro h
    simp [handleAnalysisClick, handleAnalysisStart, handleAnalysisComplete, fieldFor, h]

/-- C5 witness: with the sample dataset present, the kind risk issues a POST
to /api/risk carrying that dataset, selects the kind risk, and a success
body with risk_assessment "text" makes the analysis content "text". -/
theorem requestAnalysis_spec_witness :
    sampleLoadedState.data = some sampleSnapshot1 ∧
      (handleAnalysisClick sampleLoadedState "risk"
          (.success (.ok ⟨none, none, some "text"⟩))).2 =
        some (Request.post "/api/risk" sampleSnapshot1) ∧
      (handleAnalysisClick sampleLoadedState "risk"
          (.success (.ok ⟨none, none, some "text"⟩))).1.analysisType = some "risk" ∧
      (handleAnalysisClick sampleLoadedState "risk"
          (.success (.ok ⟨none, none, some "text"⟩))).1.analysisContent = some "text" :=
  ⟨rfl,
   (((requestAnalysis_spec sampleLoadedState sampleSnapshot1 "risk" ⟨none, none, some "text"⟩
       (Or.inr (Or.inr rfl))).2 rfl).1).trans (by decide),
   ((requestAnalysis_spec sampleLoadedState sampleSnapshot1 "risk" ⟨none, none, some "text"⟩
       (Or.inr (Or.inr rfl))).2 rfl).2.1,
   (((requestAnalysis_spec sampleLoadedState sampleSnapshot1 "risk" ⟨none, none, some "text"⟩
       (Or.inr (Or.inr rfl))).2 rfl).2.2).trans (by decide)⟩

/-- C6: whenever a run of handleSearch actually issued a request, its final
state has the loading flag cleared, for every outcome including body-parse
throws, and likewise whenever a run of handleAnalysisClick issued a request
its final state has the analysis loading flag cleared: the finally blocks
run on success and on every failure path. -/
theorem loading_cleared_on_completion (s : ViewState) (sout : FetchOutcome StockSnapshot)
    (ty : String) (aout : FetchOutcome AnalysisBody) :
    ((handleSearch s sout).2.isSome = true → (handleSearch s sout).1.loading = false) ∧
    ((handleAnalysisClick s ty aout).2.isSome = true →
      (handleAnalysisClick s ty aout).1.loadingAnalysis = false) := by
  constructor
  · intro hreq
    by_cases h : s.ticker = ""
    · simp [handleSearch, handleSearchStart, h] at hreq
    · simp [handleSearch, handleSearchStart, handleSearchComplete, h]
  · intro hreq
    rcases hd : s.data with _ | d
    · simp [handleAnalysisClick, handleAnalysisStart, hd] at hreq
    · simp [handleAnalysisClick, handleAnalysisStart, handleAnalysisComplete, hd]

/-- C6 witness: concrete runs of both request families whose response body
parse throws still end with their loading flags cleared. -/
theorem loading_cleared_on_completion_witness :
    (handleSearch sampleSearchState (.success (.error "SyntaxError"))).2.isSome = true ∧
      (handleSearch sampleSearchState (.success (.error "SyntaxError"))).1.loading = false ∧
      (handleAnalysisClick sampleLoadedState "analyze"
          (.success (.error "SyntaxError"))).2.isSome = true ∧
      (handleAnalysisClick sampleLoadedState "analyze"
          (.success (.error "SyntaxError"))).1.loadingAnalysis = false :=
  ⟨by decide,
   (loading_cleared_on_completion sampleSearchState (.success (.error "SyntaxError"))
       "analyze" (.success (.error "SyntaxError"))).1 (by decide),
   by decide,
   (loading_cleared_on_completion sampleLoadedState (.success (.error "SyntaxError"))
       "analyze" (.success (.error "SyntaxError"))).2 (by decide)⟩

/-- Helper: an arithmetic result whose magnitude is below the overflow
bound is delivered unchanged. -/
theorem jsnOfRat_eq_num (x : ℚ) (h : ratAbs x < 2 ^ 1024) : jsnOfRat x = .num x := by
  have hpow : (0 : ℚ) < 2 ^ 1024 := by positivity
  rcases lt_or_ge x 0 with hx | hx
  · rw [ratAbs, if_pos hx] at h
    rw [jsnOfRat, if_neg (by linarith), if_neg (by linarith)]
  · rw [ratAbs, if_neg (not_lt.mpr hx)] at h
    rw [jsnOfRat, if_neg (by linarith), if_neg (by linarith)]

/-- C7 (amended): the metric-card change indicator is omitted when the
previous value is falsy (absent, NaN or zero) and when the computed change
is NaN; a change that is a finite number is displayed with the up indicator
when nonnegative and the down indicator when negative, with the magnitude
to one decimal place; an infinite change (reachable by double overflow) is
NOT omitted: the isNaN-only guard lets it through and it renders with the
sign's indicator and the magnitude Infinity; and for numeric inputs with a
nonzero previous value the change is (current - previous) / previous * 100
whenever no intermediate step overflows. -/
theorem metric_change_spec (value prev : JsValue) :
    (truthy prev = false → changeDisplay value prev = none) ∧
    ((prev = .null ∨ prev = .undefined ∨ prev = .num 0 ∨ prev = .nan) →
      changeDisplay value prev = none) ∧
    (metricChange value prev = some .nan → changeDisplay value prev = none) ∧
    (∀ q : ℚ, metricChange value prev = some (.num q) →
      changeDisplay value prev =
        some ((if 0 ≤ q then "↑" else "↓") ++ " " ++ jsToFixed (ratAbs q) 1 ++ "%")) ∧
    (metricChange value prev = some .inf →
      changeDisplay value prev = some "↑ Infinity%") ∧
    (metricChange value prev = some .negInf →
      changeDisplay value prev = some "↓ Infinity%") ∧
    (∀ q p : ℚ, value = .num q → prev = .num p → p ≠ 0 →
      ratAbs (q - p) < 2 ^ 1024 → ratAbs ((q - p) / p) < 2 ^ 1024 →
      ratAbs ((q - p) / p * 100) < 2 ^ 1024 →
      metricChange value prev = some (.num ((q - p) / p * 100))) := by
  refine ⟨?_, ?_, ?_, ?_, ?_, ?_, ?_⟩
  · intro h
    simp [changeDisplay, metricChange, h]
  · rintro (rfl | rfl | rfl | rfl) <;> simp [changeDisplay, metricChange, truthy]
  · intro h
    simp [changeDisplay, h, jsnIsNaN]
  · intro q h
    simp [changeDisplay, h, jsnIsNaN, jsnNonneg, jsnAbs, jsnToFixed]
  · intro h
    simp only [changeDisplay, h]
    decide
  · intro h
    simp only [changeDisplay, h]
    decide
  · intro q p hv hp hpne hb1 hb2 hb3
    subst hv; subst hp
    have h1 : jsnSub (JsNumber.num q) (JsNumber.num p) = JsNumber.num (q - p) := by
      simp only [jsnSub]
      exact jsnOfRat_eq_num _ hb1
    have h2 : jsnDiv (JsNumber.num (q - p)) (JsNumber.num p) = JsNumber.num ((q - p) / p) := by
      simp only [jsnDiv, if_neg hpne]
      exact jsnOfRat_eq_num _ hb2
    have h3 : jsnMul (JsNumber.num ((q - p) / p)) (JsNumber.num 100) =
        JsNumber.num ((q - p) / p * 100) := by
      simp only [jsnMul]
      exact jsnOfRat_eq_num _ hb3
    simp [metricChange, truthy, jsNum, hpne, h1, h2, h3]

/-- C7 witness: current 120 against previous 100 is a +20.0 percent change,
rendered with the up indicator, and a zero previous value omits the
indicator. -/
theorem metric_change_spec_witness :
    changeDisplay (JsValue.num 120) (JsValue.num 100) = some "↑ 20.0%" ∧
      changeDisplay (JsValue.num 120) (JsValue.num 0) = none :=
  ⟨(((metric_change_spec (JsValue.num 120) (JsValue.num 100)).2.2.2.1) 20
      (by norm_num [metricChange, truthy, jsNum, jsnSub, jsnDiv, jsnMul,
        jsnOfRat])).trans (by decide),
   ((metric_change_spec (JsValue.num 120) (JsValue.num 0)).2.1)
     (Or.inr (Or.inr (Or.inl rfl)))⟩

/-- C7 counterexample: with the JSON-representable double inputs current
1e308 and previous -1e308 the subtraction already overflows (2e308 is past
the double bound 2 ^ 1024), the change evaluates to negative Infinity, and
the card does NOT omit the indicator: isNaN(-Infinity) is false, so it
renders as the down indicator with magnitude Infinity, refuting the clause
that an infinite change is omitted entirely. -/
theorem infinite_change_displayed_counterexample :
    metricChange (JsValue.num (10 ^ 308)) (JsValue.num (-(10 ^ 308))) =
        some JsNumber.negInf ∧
      changeDisplay (JsValue.num (10 ^ 308)) (JsValue.num (-(10 ^ 308))) =
        some "↓ Infinity%" := by
  have hsub : jsnSub (JsNumber.num (10 ^ 308)) (JsNumber.num (-(10 ^ 308))) = JsNumber.inf := by
    simp only [jsnSub, jsnOfRat]
    rw [if_pos (by norm_num)]
  have hdiv : jsnDiv JsNumber.inf (JsNumber.num (-(10 ^ 308))) = JsNumber.negInf := by
    simp only [jsnDiv]
    rw [if_pos (by norm_num)]
  have hmul : jsnMul JsNumber.negInf (JsNumber.num 100) = JsNumber.negInf := by
    simp only [jsnMul]
    rw [if_neg (by norm_num), if_neg (by norm_num)]
  have hm : metricChange (JsValue.num (10 ^ 308)) (JsValue.num (-(10 ^ 308))) =
      some JsNumber.negInf := by
    simp only [metricChange, truthy, jsNum]
    rw [if_pos (by norm_num), hsub, hdiv, hmul]
  refine ⟨hm, ?_⟩
  simp only [changeDisplay, hm]
  decide

/-- C8: the chart adapter yields exactly as many tuples as there are
quarterly records, and the tuple at every index is the date, revenue, net
income and profit margin of the record at that same index, so ordering is
preserved and absent metric values pass through unchanged. -/
theorem chart_adapter_spec (qd : List QuarterlyRecord) :
    (chartData qd).length = qd.length ∧
    ∀ i : Nat, (chartData qd).get? i =
      (qd.get? i).map
        (fun q => ⟨q.date, q.metrics.Revenue, q.metrics.NetIncome, q.metrics.ProfitMargin⟩) := by
  constructor
  · simp [chartData]
  · intro i
    simp [chartData, List.get?_map]

/-- C9 (amended): a failed analysis request, in any failure mode, leaves the
dataset exactly as it was, and also leaves the ticker text and the search
loading flag unchanged; besides the error slot, the analysis content (which
was cleared before the request was issued and stays cleared on failure) and
the analysis loading flag (cleared by the finally block), the run also
records the requested kind as the selected analysis type. -/
theorem analysis_failure_frame (s : ViewState) (ty : String) (out : FetchOutcome AnalysisBody)
    (hd : s.data.isSome = true) (hf : analysisFailed out = true) :
    ((handleAnalysisClick s ty out).1.data = s.data) ∧
    ((handleAnalysisClick s ty out).1.ticker = s.ticker) ∧
    ((handleAnalysisClick s ty out).1.loading = s.loading) ∧
    ((handleAnalysisClick s ty out).1.analysisContent = some "") ∧
    ((handleAnalysisClick s ty out).1.analysisType = some ty) ∧
    ((handleAnalysisClick s ty out).1.loadingAnalysis = false) := by
  rcases hds : s.data with _ | d
  · rw [hds] at hd; simp at hd
  · cases out with
    | success body =>
      cases body with
      | ok b => simp [analysisFailed] at hf
      | error m =>
        simp [handleAnalysisClick, handleAnalysisStart, handleAnalysisComplete, hds]
    | httpError body =>
      cases body <;>
        simp [handleAnalysisClick, handleAnalysisStart, handleAnalysisComplete, hds]
    | networkError m =>
      simp [handleAnalysisClick, handleAnalysisStart, handleAnalysisComplete, hds]

/-- C9 witness: a concrete failed risk request leaves the sample dataset in
place while the analysis content stays cleared. -/
theorem analysis_failure_frame_witness :
    sampleLoadedState.data.isSome = true ∧
      analysisFailed (.networkError "network down") = true ∧
      (handleAnalysisClick sampleLoadedState "risk"
          (.networkError "network down")).1.data = sampleLoadedState.data ∧
      (handleAnalysisClick sampleLoadedState "risk"
          (.networkError "network down")).1.analysisContent = some "" :=
  ⟨by decide, by decide,
   (analysis_failure_frame sampleLoadedState "risk" (.networkError "network down")
       (by decide) (by decide)).1,
   (analysis_failure_frame sampleLoadedState "risk" (.networkError "network down")
       (by decide) (by decide)).2.2.2.1⟩

/-- C9 counterexample: the claim's frame allows only the error slot, the
analysis text and the analysis loading flag to change, but a failed analysis
request also changes the selected analysis kind: requesting risk while
analyze was selected leaves risk selected after the failure. -/
theorem analysis_failure_kind_counterexample :
    (handleAnalysisClick sampleLoadedState "risk"
        (.networkError "network down")).1.analysisType ≠ sampleLoadedState.analysisType ∧
      sampleLoadedState.analysisType = some "analyze" ∧
      (handleAnalysisClick sampleLoadedState "risk"
          (.networkError "network down")).1.analysisType = some "risk" := by
  decide

/-- C10: the analysis handler leaves the error slot untouched both in its
start phase (when the request is issued) and on a successfully parsed 2xx
body, so a previously displayed error survives a later successful analysis;
and a search run, for every outcome, leaves the previously selected analysis
kind untouched. -/
theorem error_and_kind_frame (s : ViewState) (ty : String) (b : AnalysisBody)
    (sout : FetchOutcome StockSnapshot) :
    ((handleAnalysisStart s ty).1.error = s.error) ∧
    ((handleAnalysisClick s ty (.success (.ok b))).1.error = s.error) ∧
    ((handleSearch s sout).1.analysisType = s.analysisType) := by
  refine ⟨?_, ?_, ?_⟩
  · rcases hds : s.data with _ | d <;> simp [handleAnalysisStart, hds]
  · rcases hds : s.data with _ | d <;>
      simp [handleAnalysisClick, handleAnalysisStart, handleAnalysisComplete, hds]
  · by_cases h : s.ticker = ""
    · simp [handleSearch, handleSearchStart, h]
    · cases sout with
      | success body =>
        cases body <;> simp [handleSearch, handleSearchStart, handleSearchComplete, h]
      | httpError body =>
        cases body <;> simp [handleSearch, handleSearchStart, handleSearchComplete, h]
      | networkError m =>
        simp [handleSearch, handleSearchStart, handleSearchComplete, h]

/-- C1 (the code defect): rendering the dashboard after a successful fetch
whose quarterly sequence has fewer than two records does fail, because the
Financial Data Period block reads quarterly_data[0].date and
quarterly_data[1].date without optional chaining, unlike the guarded metric
cards right below it, so the missing record makes the property access
throw. -/
theorem render_fails_without_two_quarters (snap : StockSnapshot) (r : Bool)
    (h : snap.quarterly_data.length < 2) :
    renderOk (renderDashboard (some snap) r) = false := by
  have h1 : snap.quarterly_data[1]? = none := by
    rw [List.getElem?_eq_none_iff]
    omega
  cases hc : renderCompanyInfo snap.company_info with
  | error m => simp [renderDashboard, hc, renderOk]
  | ok header =>
    cases h0 : snap.quarterly_data[0]? with
    | none => simp [renderDashboard, renderPeriodSection, hc, h0, renderOk]
    | some r0 => simp [renderDashboard, renderPeriodSection, hc, h0, h1, renderOk]

/-- C1 witness: a concrete successful snapshot with exactly one quarterly
record makes the render fail. -/
theorem render_fails_without_two_quarters_witness :
    sampleSnapshot1.quarterly_data.length < 2 ∧
      renderOk (renderDashboard (some sampleSnapshot1) true) = false :=
  ⟨by decide, render_fails_without_two_quarters sampleSnapshot1 true (by decide)⟩
